import Mathlib

/-!
Shallow embedding of the pydantic schema layer of the SimpleMicroservices
repository (`src/models/coursework.py`, `src/models/assignment.py`).

Input documents are modelled by `Micro.Json`, a JSON-like value that, like a
Python value handed to `model_validate`, may also carry already-typed date,
datetime and list/object values.  Validate-and-construct of each schema
variant is modelled as an explicit function from a `Micro.Gen` (the source of
per-invocation fresh defaults: `uuid4()` and `datetime.utcnow()`) and a
document to either a typed record or a list of field-path errors, mirroring
pydantic's collect-all validation.  Serialization models `model_dump`.
-/

namespace Micro

/-- A calendar date, as produced by Python's `datetime.date`. -/
structure PyDate where
  year : Nat
  month : Nat
  day : Nat
deriving DecidableEq

/-- A timestamp, as produced by Python's `datetime.datetime` (UTC, seconds). -/
structure PyDateTime where
  year : Nat
  month : Nat
  day : Nat
  hour : Nat
  minute : Nat
  second : Nat
deriving DecidableEq

/-- Lower-case hexadecimal digit. -/
def isHexChar (c : Char) : Bool :=
  c.isDigit || (('a' ≤ c) && (c ≤ 'f'))

/-- Canonical textual form of a UUID: 36 characters, lower-case hex with
hyphens at positions 8, 13, 18, 23 (spec section 6 serialization rule). -/
def isValidUUID (s : String) : Bool :=
  let cs := s.toList
  (cs.length == 36) &&
    (List.range 36).all (fun i =>
      if (i == 8) || (i == 13) || (i == 18) || (i == 23) then
        cs.getD i ' ' == '-'
      else
        isHexChar (cs.getD i ' '))

/-- A well-formed UUID value (Python `uuid.UUID` objects are well formed by
construction; the canonical string is the carrier). -/
abbrev UUID := { s : String // isValidUUID s = true }

/-- Parse a UUID from its textual form. -/
def parseUUID (s : String) : Option UUID :=
  if h : isValidUUID s = true then some ⟨s, h⟩ else none

def isLeapYear (y : Nat) : Bool :=
  (y % 4 == 0) && ((y % 100 != 0) || (y % 400 == 0))

def daysInMonth (y m : Nat) : Nat :=
  if m == 2 then (if isLeapYear y then 29 else 28)
  else if (m == 4) || (m == 6) || (m == 9) || (m == 11) then 30
  else 31

/-- Split a character list at every occurrence of the separator `c`
(the single-character analogue of Python's `str.split(sep)`). -/
def splitOnChar (c : Char) : List Char → List (List Char)
  | [] => [[]]
  | x :: rest =>
    match splitOnChar c rest with
    | [] => [[]]
    | hd :: tl => if x == c then [] :: hd :: tl else (x :: hd) :: tl

/-- Value of a non-empty all-digit character sequence. -/
def digitsToNat? (cs : List Char) : Option Nat :=
  if cs ≠ [] ∧ cs.all Char.isDigit then
    some (cs.foldl (fun n c => n * 10 + (c.toNat - 48)) 0)
  else none

/-- Parse a `YYYY-MM-DD` calendar date (the `due_date` wire form). -/
def parseDate (s : String) : Option PyDate :=
  match splitOnChar '-' s.toList with
  | [ys, ms, ds] =>
    if (ys.length == 4) && (ms.length == 2) && (ds.length == 2) then
      match digitsToNat? ys, digitsToNat? ms, digitsToNat? ds with
      | some y, some m, some d =>
        if 1 ≤ m ∧ m ≤ 12 ∧ 1 ≤ d ∧ d ≤ daysInMonth y m then
          some ⟨y, m, d⟩
        else none
      | _, _, _ => none
    else none
  | _ => none

def parseTimeOfDay (t : List Char) : Option (Nat × Nat × Nat) :=
  match splitOnChar ':' t with
  | [hs, ms, ss] =>
    if (hs.length == 2) && (ms.length == 2) && (ss.length == 2) then
      match digitsToNat? hs, digitsToNat? ms, digitsToNat? ss with
      | some h, some mi, some se =>
        if h ≤ 23 ∧ mi ≤ 59 ∧ se ≤ 59 then some (h, mi, se) else none
      | _, _, _ => none
    else none
  | _ => none

/-- Parse an ISO-8601 UTC timestamp `YYYY-MM-DDTHH:MM:SSZ` (the `created_at`
and `updated_at` wire form). -/
def parseDateTime (s : String) : Option PyDateTime :=
  match splitOnChar 'T' s.toList with
  | [ds, ts] =>
    match splitOnChar 'Z' ts, parseDate (String.mk ds) with
    | [core, []], some d =>
      match parseTimeOfDay core with
      | some (h, mi, se) => some ⟨d.year, d.month, d.day, h, mi, se⟩
      | none => none
    | _, _ => none
  | _ => none

/-- Modelled from the spec: `src/models/person.py` is not under `src/`; the
spec (section 4.2) requires `email` to be a syntactically well-formed email
address.  Well-formedness here: one `@` separating a non-empty local part
from a domain that contains a dot and has no empty dot-separated label. -/
def isValidEmail (s : String) : Bool :=
  match splitOnChar '@' s.toList with
  | [loc, dom] =>
    (loc != []) && (dom != []) &&
      (match splitOnChar '.' dom with
       | [_] => false
       | parts => parts.all (fun p => p != []))
  | _ => false

/-- JSON-like input/output documents.  `date`, `dtime` leaves model
already-typed Python `date`/`datetime` values, which pydantic accepts as-is
in python mode and which `model_dump` produces. -/
inductive Json where
  | null : Json
  | str : String → Json
  | date : PyDate → Json
  | dtime : PyDateTime → Json
  | arr : List Json → Json
  | obj : List (String × Json) → Json

/-- First value bound to key `k`, as pydantic sees a dict field. -/
def findField (fs : List (String × Json)) (k : String) : Option Json :=
  match fs with
  | [] => none
  | (n, v) :: rest => if n = k then some v else findField rest k

def Json.getField (j : Json) (k : String) : Option Json :=
  match j with
  | .obj fs => findField fs k
  | _ => none

def Json.hasKey (j : Json) (k : String) : Bool :=
  (j.getField k).isSome

/-- Keys of a serialized object (the fields a dumped model carries). -/
def Json.keys (j : Json) : List String :=
  match j with
  | .obj fs => fs.map Prod.fst
  | _ => []

/-- The per-invocation source of server-generated defaults: a supply of fresh
UUIDs (`uuid4`) and the current time (`datetime.utcnow`). -/
structure Gen where
  uuid : Nat → UUID
  now : PyDateTime

/-- Derived supply handed to a nested validator, so that distinct default
sites draw distinct members of the supply. -/
def Gen.split (g : Gen) (i : Nat) : Gen :=
  ⟨fun n => g.uuid (Nat.pair i n), g.now⟩

/-- A validation error is identified by its field path, e.g.
`["coursework", "professor", "email"]` (spec section 7). -/
abbrev FieldPath := List String

/-- Result of validate-and-construct: a typed value or the collected list of
field-path errors (pydantic collects all errors of a document). -/
abbrev Validated (α : Type) := Except (List FieldPath) α

instance {ε α : Type} [DecidableEq ε] [DecidableEq α] : DecidableEq (Except ε α) :=
  fun x y =>
    match x, y with
    | .ok a, .ok b =>
      if h : a = b then isTrue (by rw [h])
      else isFalse (by intro hc; rw [Except.ok.injEq] at hc; exact h hc)
    | .error a, .error b =>
      if h : a = b then isTrue (by rw [h])
      else isFalse (by intro hc; rw [Except.error.injEq] at hc; exact h hc)
    | .ok _, .error _ => isFalse (fun hc => Except.noConfusion hc)
    | .error _, .ok _ => isFalse (fun hc => Except.noConfusion hc)

/-- Error-collecting applicative combination, as pydantic validates every
field and reports the union of the failures. -/
def vseq {α β : Type} (f : Validated (α → β)) (x : Validated α) : Validated β :=
  match f, x with
  | .ok f', .ok a => .ok (f' a)
  | .ok _, .error e => .error e
  | .error e, .ok _ => .error e
  | .error e1, .error e2 => .error (e1 ++ e2)

def vmap {α β : Type} (f : α → β) (x : Validated α) : Validated β :=
  match x with
  | .ok a => .ok (f a)
  | .error e => .error e

/-- Root every error of `x` under field `n`. -/
def inField {α : Type} (n : String) (x : Validated α) : Validated α :=
  match x with
  | .ok a => .ok a
  | .error es => .error (es.map (fun p => n :: p))

/-- Validate each element of a list, indexing error paths by position. -/
def vList {α : Type} (f : Nat → Json → Validated α) : Nat → List Json → Validated (List α)
  | _, [] => .ok []
  | i, x :: xs => vseq (vmap List.cons (f i x)) (vList f (i + 1) xs)

def errsOf {α : Type} (x : Validated α) : List FieldPath :=
  match x with
  | .ok _ => []
  | .error e => e

def isOkV {α : Type} (x : Validated α) : Bool :=
  match x with
  | .ok _ => true
  | .error _ => false

/-- Required `str` field. -/
def reqString : Option Json → Validated String
  | some (.str s) => .ok s
  | _ => .error [[]]

/-- `Optional[str]` field defaulting to `None`. -/
def optString : Option Json → Validated (Option String)
  | none => .ok none
  | some .null => .ok none
  | some (.str s) => .ok (some s)
  | _ => .error [[]]

/-- Modelled from the spec: required non-empty `uni` natural key of a Person
(spec section 4.2). -/
def reqUni : Option Json → Validated String
  | some (.str s) => if s = "" then .error [[]] else .ok s
  | _ => .error [[]]

/-- Modelled from the spec: required well-formed email of a Person. -/
def reqEmail : Option Json → Validated String
  | some (.str s) => if isValidEmail s then .ok s else .error [[]]
  | _ => .error [[]]

/-- Required `date` field. -/
def reqDate : Option Json → Validated PyDate
  | some (.date d) => .ok d
  | some (.str s) =>
    match parseDate s with
    | some d => .ok d
    | none => .error [[]]
  | _ => .error [[]]

/-- `Optional[date]` field defaulting to `None`. -/
def optDate : Option Json → Validated (Option PyDate)
  | none => .ok none
  | some .null => .ok none
  | some (.date d) => .ok (some d)
  | some (.str s) =>
    match parseDate s with
    | some d => .ok (some d)
    | none => .error [[]]
  | _ => .error [[]]

/-- `UUID` field with `default_factory=uuid4`: absent draws `fresh`, an
explicit value must be a well-formed UUID, `null` is rejected. -/
def uuidOr (fresh : UUID) : Option Json → Validated UUID
  | none => .ok fresh
  | some (.str s) =>
    match parseUUID s with
    | some u => .ok u
    | none => .error [[]]
  | _ => .error [[]]

/-- `Optional[UUID]` field with `default_factory=uuid4`
(`AssignmentUpdate.id`, src/models/assignment.py lines 108-112): absent draws
`fresh`, an explicit `null` is accepted as `None`. -/
def optUUIDOr (fresh : UUID) : Option Json → Validated (Option UUID)
  | none => .ok (some fresh)
  | some .null => .ok none
  | some (.str s) =>
    match parseUUID s with
    | some u => .ok (some u)
    | none => .error [[]]
  | _ => .error [[]]

/-- `datetime` field with `default_factory=datetime.utcnow`: absent draws the
current time, `null` is rejected (the field is not `Optional`). -/
def dtimeOr (now : PyDateTime) : Option Json → Validated PyDateTime
  | none => .ok now
  | some (.dtime t) => .ok t
  | some (.str s) =>
    match parseDateTime s with
    | some t => .ok t
    | none => .error [[]]
  | _ => .error [[]]

/-- `Optional[datetime]` field defaulting to `None`. -/
def optDTime : Option Json → Validated (Option PyDateTime)
  | none => .ok none
  | some .null => .ok none
  | some (.dtime t) => .ok (some t)
  | some (.str s) =>
    match parseDateTime s with
    | some t => .ok (some t)
    | none => .error [[]]
  | _ => .error [[]]

/-- Modelled from the spec: `src/models/address.py` is not under `src/`.
Per spec section 4.1, an Address has a server-defaulted UUID `id`, a nullable
`state`, and no independently required field beyond declared types. -/
structure Address where
  id : UUID
  street : Option String
  city : Option String
  state : Option String
  postal_code : Option String
  country : Option String
deriving DecidableEq

/-- Modelled from the spec: validate-and-construct of an Address
(spec section 4.1). -/
def Address.validate (g : Gen) (j : Json) : Validated Address :=
  match j with
  | .obj fs =>
    vseq (vseq (vseq (vseq (vseq (vseq (.ok Address.mk)
      (inField "id" (uuidOr (g.uuid 0) (findField fs "id"))))
      (inField "street" (optString (findField fs "street"))))
      (inField "city" (optString (findField fs "city"))))
      (inField "state" (optString (findField fs "state"))))
      (inField "postal_code" (optString (findField fs "postal_code"))))
      (inField "country" (optString (findField fs "country")))
  | _ => .error [[]]

def optJson (o : Option String) : Json :=
  match o with
  | some s => .str s
  | none => .null

/-- Modelled from the spec: serialization of an Address; `state` is emitted
as an explicit `null` when absent (spec section 6). -/
def Address.serialize (a : Address) : Json :=
  .obj [("id", .str a.id.val), ("street", optJson a.street),
        ("city", optJson a.city), ("state", optJson a.state),
        ("postal_code", optJson a.postal_code), ("country", optJson a.country)]

/-- Modelled from the spec: `src/models/person.py` is not under `src/`.
Per spec section 4.2, `PersonBase` has a required non-empty `uni`, required
`first_name`/`last_name`, a required well-formed `email`, and `addresses`
defaulting to the empty list. -/
structure PersonBase where
  uni : String
  first_name : String
  last_name : String
  email : String
  addresses : List Address
deriving DecidableEq

/-- Modelled from the spec: validate-and-construct of a `PersonBase`
(spec section 4.2). -/
def PersonBase.validate (g : Gen) (j : Json) : Validated PersonBase :=
  match j with
  | .obj fs =>
    vseq (vseq (vseq (vseq (vseq (.ok PersonBase.mk)
      (inField "uni" (reqUni (findField fs "uni"))))
      (inField "first_name" (reqString (findField fs "first_name"))))
      (inField "last_name" (reqString (findField fs "last_name"))))
      (inField "email" (reqEmail (findField fs "email"))))
      (inField "addresses"
        (match findField fs "addresses" with
         | none => .ok []
         | some (.arr xs) =>
           vList (fun i x => inField (toString i) (Address.validate (g.split i) x)) 0 xs
         | some _ => .error [[]]))
  | _ => .error [[]]

/-- Modelled from the spec: serialization of a `PersonBase`. -/
def PersonBase.serialize (p : PersonBase) : Json :=
  .obj [("uni", .str p.uni), ("first_name", .str p.first_name),
        ("last_name", .str p.last_name), ("email", .str p.email),
        ("addresses", .arr (p.addresses.map Address.serialize))]

/-- `CourseworkBase` (src/models/coursework.py lines 10-64): server-defaulted
UUID `id`, required `title` and `semester`, required embedded `professor`,
`people` defaulting to the empty list.  It carries no timestamp field. -/
structure CourseworkBase where
  id : UUID
  title : String
  semester : String
  professor : PersonBase
  people : List PersonBase
deriving DecidableEq

/-- Validate-and-construct of a `CourseworkBase` document. -/
def CourseworkBase.validate (g : Gen) (j : Json) : Validated CourseworkBase :=
  match j with
  | .obj fs =>
    vseq (vseq (vseq (vseq (vseq (.ok CourseworkBase.mk)
      (inField "id" (uuidOr (g.uuid 0) (findField fs "id"))))
      (inField "title" (reqString (findField fs "title"))))
      (inField "semester" (reqString (findField fs "semester"))))
      (match findField fs "professor" with
       | none => .error [["professor"]]
       | some pj => inField "professor" (PersonBase.validate (g.split 1) pj)))
      (inField "people"
        (match findField fs "people" with
         | none => .ok []
         | some (.arr xs) =>
           vList (fun i x => inField (toString i) (PersonBase.validate ((g.split 2).split i) x)) 0 xs
         | some _ => .error [[]]))
  | _ => .error [[]]

/-- Serialization (`model_dump`) of a `CourseworkBase`. -/
def CourseworkBase.serialize (c : CourseworkBase) : Json :=
  .obj [("id", .str c.id.val), ("title", .str c.title),
        ("semester", .str c.semester), ("professor", c.professor.serialize),
        ("people", .arr (c.people.map PersonBase.serialize))]

/-- `CourseworkCreate` (src/models/coursework.py lines 103-138) inherits
every field of `CourseworkBase` and declares none of its own. -/
abbrev CourseworkCreate := CourseworkBase

def CourseworkCreate.validate : Gen → Json → Validated CourseworkCreate :=
  CourseworkBase.validate

/-- `CourseworkUpdate` (src/models/coursework.py lines 140-174): optional
`title`, `semester`, `professor`, `people`; no `id` field; a non-`Optional`
`created_at` with `default_factory=datetime.utcnow`. -/
structure CourseworkUpdate where
  title : Option String
  semester : Option String
  professor : Option PersonBase
  people : Option (List PersonBase)
  created_at : PyDateTime
deriving DecidableEq

/-- Validate-and-construct of a `CourseworkUpdate` patch document. -/
def CourseworkUpdate.validate (g : Gen) (j : Json) : Validated CourseworkUpdate :=
  match j with
  | .obj fs =>
    vseq (vseq (vseq (vseq (vseq (.ok CourseworkUpdate.mk)
      (inField "title" (optString (findField fs "title"))))
      (inField "semester" (optString (findField fs "semester"))))
      (match findField fs "professor" with
       | none => .ok none
       | some .null => .ok none
       | some pj => vmap some (inField "professor" (PersonBase.validate (g.split 1) pj))))
      (match findField fs "people" with
       | none => .ok none
       | some .null => .ok none
       | some (.arr xs) =>
         vmap some (inField "people"
           (vList (fun i x => inField (toString i) (PersonBase.validate ((g.split 2).split i) x)) 0 xs))
       | some _ => .error [["people"]]))
      (inField "created_at" (dtimeOr g.now (findField fs "created_at")))
  | _ => .error [[]]

/-- Serialization of a `CourseworkUpdate` patch. -/
def CourseworkUpdate.serialize (u : CourseworkUpdate) : Json :=
  .obj [("title", optJson u.title), ("semester", optJson u.semester),
        ("professor", match u.professor with
                      | some p => p.serialize
                      | none => .null),
        ("people", match u.people with
                   | some ps => .arr (ps.map PersonBase.serialize)
                   | none => .null),
        ("created_at", .dtime u.created_at)]

/-- `CourseworkRead` (src/models/coursework.py lines 203-215): the Base
fields with a re-declared `id` plus `updated_at`.  No `created_at` exists
anywhere in the Coursework variants. -/
structure CourseworkRead where
  id : UUID
  title : String
  semester : String
  professor : PersonBase
  people : List PersonBase
  updated_at : PyDateTime
deriving DecidableEq

/-- Serialization of a `CourseworkRead`. -/
def CourseworkRead.serialize (r : CourseworkRead) : Json :=
  .obj [("id", .str r.id.val), ("title", .str r.title),
        ("semester", .str r.semester), ("professor", r.professor.serialize),
        ("people", .arr (r.people.map PersonBase.serialize)),
        ("updated_at", .dtime r.updated_at)]

/-- `AssignmentBase` (src/models/assignment.py lines 10-78): server-defaulted
UUID `id`, required `title`, `description`, `due_date`, required embedded
`coursework`, and `created_at` with `default_factory=datetime.utcnow`. -/
structure AssignmentBase where
  id : UUID
  title : String
  description : String
  due_date : PyDate
  coursework : CourseworkBase
  created_at : PyDateTime
deriving DecidableEq

/-- Validate-and-construct of an `AssignmentBase` document. -/
def AssignmentBase.validate (g : Gen) (j : Json) : Validated AssignmentBase :=
  match j with
  | .obj fs =>
    vseq (vseq (vseq (vseq (vseq (vseq (.ok AssignmentBase.mk)
      (inField "id" (uuidOr (g.uuid 0) (findField fs "id"))))
      (inField "title" (reqString (findField fs "title"))))
      (inField "description" (reqString (findField fs "description"))))
      (inField "due_date" (reqDate (findField fs "due_date"))))
      (match findField fs "coursework" with
       | none => .error [["coursework"]]
       | some cj => inField "coursework" (CourseworkBase.validate (g.split 1) cj)))
      (inField "created_at" (dtimeOr g.now (findField fs "created_at")))
  | _ => .error [[]]

/-- Serialization (`model_dump`) of an `AssignmentBase`. -/
def AssignmentBase.serialize (a : AssignmentBase) : Json :=
  .obj [("id", .str a.id.val), ("title", .str a.title),
        ("description", .str a.description), ("due_date", .date a.due_date),
        ("coursework", a.coursework.serialize),
        ("created_at", .dtime a.created_at)]

/-- `AssignmentCreate` (src/models/assignment.py lines 81-104) inherits every
field of `AssignmentBase` and declares none of its own. -/
abbrev AssignmentCreate := AssignmentBase

def AssignmentCreate.validate : Gen → Json → Validated AssignmentCreate :=
  AssignmentBase.validate

/-- `AssignmentUpdate` (src/models/assignment.py lines 106-171): every field
optional, but `id` has `default_factory=uuid4` while all other fields
default to `None`. -/
structure AssignmentUpdate where
  id : Option UUID
  title : Option String
  description : Option String
  due_date : Option PyDate
  coursework : Option CourseworkBase
  created_at : Option PyDateTime
deriving DecidableEq

/-- Validate-and-construct of an `AssignmentUpdate` patch document. -/
def AssignmentUpdate.validate (g : Gen) (j : Json) : Validated AssignmentUpdate :=
  match j with
  | .obj fs =>
    vseq (vseq (vseq (vseq (vseq (vseq (.ok AssignmentUpdate.mk)
      (inField "id" (optUUIDOr (g.uuid 0) (findField fs "id"))))
      (inField "title" (optString (findField fs "title"))))
      (inField "description" (optString (findField fs "description"))))
      (inField "due_date" (optDate (findField fs "due_date"))))
      (match findField fs "coursework" with
       | none => .ok none
       | some .null => .ok none
       | some cj => vmap some (inField "coursework" (CourseworkBase.validate (g.split 1) cj))))
      (inField "created_at" (optDTime (findField fs "created_at")))
  | _ => .error [[]]

/-- `AssignmentRead` (src/models/assignment.py lines 176-215): the Base
fields with re-declared `id` and `created_at`, plus `updated_at`. -/
structure AssignmentRead where
  id : UUID
  title : String
  description : String
  due_date : PyDate
  coursework : CourseworkBase
  created_at : PyDateTime
  updated_at : PyDateTime
deriving DecidableEq

/-- Serialization of an `AssignmentRead`. -/
def AssignmentRead.serialize (r : AssignmentRead) : Json :=
  .obj [("id", .str r.id.val), ("title", .str r.title),
        ("description", .str r.description), ("due_date", .date r.due_date),
        ("coursework", r.coursework.serialize),
        ("created_at", .dtime r.created_at), ("updated_at", .dtime r.updated_at)]

/-- Persons constructed by validation have a non-empty `uni` and a
well-formed `email`. -/
def PersonBase.WF (p : PersonBase) : Bool :=
  (p.uni != "") && isValidEmail p.email

def CourseworkBase.WF (c : CourseworkBase) : Bool :=
  c.professor.WF && c.people.all PersonBase.WF

def AssignmentBase.WF (a : AssignmentBase) : Bool :=
  a.coursework.WF

/-- The document explicitly supplies the Address's server-defaulted `id`. -/
def Json.suppliesAddressDefaults (j : Json) : Bool :=
  match j with
  | .obj fs => (findField fs "id").isSome
  | _ => true

/-- The document explicitly supplies every server-defaulted field of the
embedded Addresses. -/
def Json.suppliesPersonDefaults (j : Json) : Bool :=
  match j with
  | .obj fs =>
    match findField fs "addresses" with
    | some (.arr xs) => xs.all Json.suppliesAddressDefaults
    | _ => true
  | _ => true

/-- The document explicitly supplies every server-defaulted field reachable
from a Coursework document (its `id` and those of nested persons). -/
def Json.suppliesCourseworkDefaults (j : Json) : Bool :=
  match j with
  | .obj fs =>
    (findField fs "id").isSome &&
      (match findField fs "professor" with
       | some pj => pj.suppliesPersonDefaults
       | none => true) &&
      (match findField fs "people" with
       | some (.arr xs) => xs.all Json.suppliesPersonDefaults
       | _ => true)
  | _ => true

/-- The document explicitly supplies every server-defaulted field reachable
from an Assignment document (`id`, `created_at`, and nested defaults). -/
def Json.suppliesAssignmentDefaults (j : Json) : Bool :=
  match j with
  | .obj fs =>
    (findField fs "id").isSome && (findField fs "created_at").isSome &&
      (match findField fs "coursework" with
       | some cj => cj.suppliesCourseworkDefaults
       | none => true)
  | _ => true

/-- The patch document explicitly supplies every field whose default an
`AssignmentUpdate` validation would otherwise draw (`id`, and the defaults
nested in a supplied `coursework`). -/
def Json.suppliesAssignmentUpdateDefaults (j : Json) : Bool :=
  match j with
  | .obj fs =>
    (findField fs "id").isSome &&
      (match findField fs "coursework" with
       | some cj => cj.suppliesCourseworkDefaults
       | none => true)
  | _ => true

/-- The patch document explicitly supplies every field whose default a
`CourseworkUpdate` validation would otherwise draw (`created_at`, and the
defaults nested in a supplied `professor` or `people`). -/
def Json.suppliesCourseworkUpdateDefaults (j : Json) : Bool :=
  match j with
  | .obj fs =>
    (findField fs "created_at").isSome &&
      (match findField fs "professor" with
       | some pj => pj.suppliesPersonDefaults
       | none => true) &&
      (match findField fs "people" with
       | some (.arr xs) => xs.all Json.suppliesPersonDefaults
       | _ => true)
  | _ => true

/-! Concrete fixtures used by the closed witnesses and counterexamples. -/

def uuidA : UUID :=
  ⟨"aaaaaaaa-aaaa-aaaa-aaaa-aaaaaaaaaaaa", by decide⟩

def uuidB : UUID :=
  ⟨"bbbbbbbb-bbbb-bbbb-bbbb-bbbbbbbbbbbb", by decide⟩

def uuid550 : UUID :=
  ⟨"550e8400-e29b-41d4-a716-446655440000", by decide⟩

def t0 : PyDateTime := ⟨2025, 1, 15, 10, 20, 30⟩

/-- A concrete defaults source whose every fresh UUID is `uuidA`. -/
def genA : Gen := ⟨fun _ => uuidA, t0⟩

/-- A concrete defaults source whose every fresh UUID is `uuidB`. -/
def genB : Gen := ⟨fun _ => uuidB, t0⟩

def samplePerson : PersonBase :=
  ⟨"df123", "Donald", "Ferguson", "d@f.edu", []⟩

def sampleCoursework : CourseworkBase :=
  ⟨uuidA, "Cloud Computing", "Fall 2025", samplePerson, []⟩

def sampleCourseworkRead : CourseworkRead :=
  ⟨uuidA, "Cloud Computing", "Fall 2025", samplePerson, [], t0⟩

def sampleAssignmentRead : AssignmentRead :=
  ⟨uuidA, "Assignment 1", "Complete the cloud computing project.",
   ⟨2025, 12, 31⟩, sampleCoursework, t0, t0⟩

def goodProfFields : List (String × Json) :=
  [("uni", .str "df123"), ("first_name", .str "Donald"),
   ("last_name", .str "Ferguson"), ("email", .str "d@f.edu")]

/-- The example input of spec section 8. -/
def ex8Fields : List (String × Json) :=
  [("title", .str "HW1"), ("description", .str "..."),
   ("due_date", .str "2025-12-31"),
   ("coursework", .obj
     [("title", .str "CC"), ("semester", .str "Fall 2025"),
      ("professor", .obj goodProfFields)])]

def ex8 : Json := .obj ex8Fields

/-- The section 8 example with a client-supplied `id`. -/
def ex8IdFields : List (String × Json) :=
  ("id", .str "550e8400-e29b-41d4-a716-446655440000") :: ex8Fields

/-- The record validating `ex8IdFields` against `genA` constructs. -/
def ex8IdResult : AssignmentBase :=
  ⟨uuid550, "HW1", "...", ⟨2025, 12, 31⟩,
   ⟨uuidA, "CC", "Fall 2025",
    ⟨"df123", "Donald", "Ferguson", "d@f.edu", []⟩, []⟩,
   t0⟩

/-- A professor document with a malformed email. -/
def badProfFields : List (String × Json) :=
  [("uni", .str "df123"), ("first_name", .str "Donald"),
   ("last_name", .str "Ferguson"), ("email", .str "bad")]

/-- An Assignment document whose `coursework.professor.email` is malformed. -/
def badCwFields : List (String × Json) :=
  [("title", .str "CC"), ("semester", .str "Fall 2025"),
   ("professor", .obj badProfFields)]

def badAsgFields : List (String × Json) :=
  [("title", .str "HW1"), ("description", .str "..."),
   ("due_date", .str "2025-12-31"), ("coursework", .obj badCwFields)]

/-- A Coursework document that supplies every server-defaulted field. -/
def fullCwFields : List (String × Json) :=
  [("id", .str "550e8400-e29b-41d4-a716-446655440000"),
   ("title", .str "CC"), ("semester", .str "Fall 2025"),
   ("professor", .obj goodProfFields)]

/-- An Assignment document that supplies every server-defaulted field. -/
def fullAsgFields : List (String × Json) :=
  [("id", .str "550e8400-e29b-41d4-a716-446655440000"),
   ("created_at", .str "2025-01-15T10:20:30Z"),
   ("title", .str "HW1"), ("description", .str "..."),
   ("due_date", .str "2025-12-31"), ("coursework", .obj fullCwFields)]

/-- The record that validating the section 8 example against a defaults
source `g` constructs. -/
def ex8Result (g : Gen) : AssignmentBase :=
  ⟨g.uuid 0, "HW1", "...", ⟨2025, 12, 31⟩,
   ⟨(g.split 1).uuid 0, "CC", "Fall 2025",
    ⟨"df123", "Donald", "Ferguson", "d@f.edu", []⟩, []⟩,
   g.now⟩

end Micro

namespace Micro

/-! Infrastructure lemmas about the validation applicative. -/

theorem errsOf_vseq {α β : Type} (f : Validated (α → β)) (x : Validated α) :
    errsOf (vseq f x) = errsOf f ++ errsOf x := by
  cases f <;> cases x <;> simp [vseq, errsOf]

theorem isOkV_vseq {α β : Type} (f : Validated (α → β)) (x : Validated α) :
    isOkV (vseq f x) = (isOkV f && isOkV x) := by
  cases f <;> cases x <;> rfl

theorem errsOf_vmap {α β : Type} (f : α → β) (x : Validated α) :
    errsOf (vmap f x) = errsOf x := by
  cases x <;> rfl

theorem isOkV_vmap {α β : Type} (f : α → β) (x : Validated α) :
    isOkV (vmap f x) = isOkV x := by
  cases x <;> rfl

theorem errsOf_inField {α : Type} (n : String) (x : Validated α) :
    errsOf (inField n x) = (errsOf x).map (fun p => n :: p) := by
  cases x <;> rfl

theorem isOkV_inField {α : Type} (n : String) (x : Validated α) :
    isOkV (inField n x) = isOkV x := by
  cases x <;> rfl

theorem inField_eq_ok {α : Type} {n : String} {x : Validated α} {a : α} :
    inField n x = .ok a ↔ x = .ok a := by
  cases x <;> simp [inField]

theorem vmap_eq_ok {α β : Type} {f : α → β} {x : Validated α} {b : β} :
    vmap f x = .ok b ↔ ∃ a, x = .ok a ∧ f a = b := by
  cases x <;> simp [vmap]

theorem vseq_eq_ok {α β : Type} {f : Validated (α → β)} {x : Validated α} {b : β} :
    vseq f x = .ok b ↔ ∃ f' a, f = .ok f' ∧ x = .ok a ∧ f' a = b := by
  cases f <;> cases x <;> simp [vseq]

theorem eq_error_of_isOkV_false {α : Type} {x : Validated α} :
    isOkV x = false → ∃ e, x = .error e := by
  cases x <;> simp [isOkV]

theorem eq_error_of_mem_errsOf {α : Type} {x : Validated α} {p : FieldPath} :
    p ∈ errsOf x → ∃ e, x = .error e ∧ p ∈ e := by
  cases x <;> simp [errsOf]

theorem vList_map_ok {α : Type} (f : Nat → Json → Validated α) (ser : α → Json)
    (l : List α) (h : ∀ i a, a ∈ l → f i (ser a) = .ok a) :
    ∀ i, vList f i (l.map ser) = .ok l := by
  induction l with
  | nil => intro i; rfl
  | cons hd tl ih =>
    intro i
    have hhd : f i (ser hd) = .ok hd := h i hd (by simp)
    have htl : vList f (i + 1) (tl.map ser) = .ok tl :=
      ih (fun i a ha => h i a (by simp [ha])) (i + 1)
    simp [vList, hhd, htl, vmap, vseq]

theorem vList_ok_forall {α : Type} (f : Nat → Json → Validated α) (P : α → Prop)
    (hf : ∀ i x y, f i x = .ok y → P y) :
    ∀ xs i l, vList f i xs = .ok l → ∀ y ∈ l, P y := by
  intro xs
  induction xs with
  | nil =>
    intro i l h y hy
    simp [vList] at h
    subst h
    simp at hy
  | cons hd tl ih =>
    intro i l h y hy
    simp only [vList] at h
    rw [vseq_eq_ok] at h
    obtain ⟨f', a, hf', ha, hb⟩ := h
    rw [vmap_eq_ok] at hf'
    obtain ⟨z, hz, hcons⟩ := hf'
    subst hcons
    subst hb
    rcases List.mem_cons.mp hy with h1 | h2
    · exact h1 ▸ hf i hd z hz
    · exact ih (i + 1) a ha y h2

theorem vList_congr {α : Type} (f f' : Nat → Json → Validated α) :
    ∀ xs i, (∀ i x, x ∈ xs → f i x = f' i x) → vList f i xs = vList f' i xs := by
  intro xs
  induction xs with
  | nil => intro i _; rfl
  | cons hd tl ih =>
    intro i h
    simp only [vList]
    rw [h i hd (by simp), ih (i + 1) (fun i x hx => h i x (by simp [hx]))]

/-! Leaf-parser lemmas. -/

theorem parseUUID_val (u : UUID) : parseUUID u.val = some u := by
  simp [parseUUID, u.property]

theorem uuidOr_val (fresh : UUID) (u : UUID) :
    uuidOr fresh (some (.str u.val)) = .ok u := by
  simp [uuidOr, parseUUID_val]

theorem optString_optJson (o : Option String) :
    optString (some (optJson o)) = .ok o := by
  cases o <;> rfl

theorem reqUni_ok {o : Option Json} {s : String} :
    reqUni o = .ok s → (s != "") = true := by
  match o with
  | none => simp [reqUni]
  | some .null => simp [reqUni]
  | some (.str t) =>
    simp only [reqUni]
    split
    · simp
    · intro h
      rw [Except.ok.injEq] at h
      subst h
      simpa [bne] using by assumption
  | some (.date d) => simp [reqUni]
  | some (.dtime t) => simp [reqUni]
  | some (.arr xs) => simp [reqUni]
  | some (.obj fs) => simp [reqUni]

theorem reqEmail_ok {o : Option Json} {s : String} :
    reqEmail o = .ok s → isValidEmail s = true := by
  match o with
  | none => simp [reqEmail]
  | some .null => simp [reqEmail]
  | some (.str t) =>
    simp only [reqEmail]
    split
    · intro h
      rw [Except.ok.injEq] at h
      subst h
      assumption
    · simp
  | some (.date d) => simp [reqEmail]
  | some (.dtime t) => simp [reqEmail]
  | some (.arr xs) => simp [reqEmail]
  | some (.obj fs) => simp [reqEmail]

theorem uuidOr_some (f1 f2 : UUID) (v : Json) :
    uuidOr f1 (some v) = uuidOr f2 (some v) := by
  cases v <;> rfl

theorem optUUIDOr_some (f1 f2 : UUID) (v : Json) :
    optUUIDOr f1 (some v) = optUUIDOr f2 (some v) := by
  cases v <;> rfl

theorem dtimeOr_some (t1 t2 : PyDateTime) (v : Json) :
    dtimeOr t1 (some v) = dtimeOr t2 (some v) := by
  cases v <;> rfl

/-! Serialize-then-validate round trips, level by level. -/

theorem address_serialize_validate (g : Gen) (a : Address) :
    Address.validate g a.serialize = .ok a := by
  obtain ⟨i, st, ci, sa, pc, co⟩ := a
  simp [Address.serialize, Address.validate, findField, uuidOr_val,
        optString_optJson, vseq, inField]

theorem isOkV_err {α : Type} (e : List FieldPath) :
    isOkV (.error e : Validated α) = false := rfl

theorem isOkV_pure {α : Type} (a : α) :
    isOkV (.ok a : Validated α) = true := rfl

theorem errsOf_err {α : Type} (e : List FieldPath) :
    errsOf (.error e : Validated α) = e := rfl

theorem errsOf_pure {α : Type} (a : α) :
    errsOf (.ok a : Validated α) = [] := rfl

theorem inField_ok {α : Type} (n : String) (a : α) :
    inField n (.ok a) = (.ok a : Validated α) := rfl

theorem vseq_ok_ok {α β : Type} (f : α → β) (a : α) :
    vseq (.ok f) (.ok a) = (.ok (f a) : Validated β) := rfl

theorem vseq5_eq_ok {α1 α2 α3 α4 α5 β : Type}
    {mk : α1 → α2 → α3 → α4 → α5 → β} {c1 : Validated α1} {c2 : Validated α2}
    {c3 : Validated α3} {c4 : Validated α4} {c5 : Validated α5} {b : β} :
    vseq (vseq (vseq (vseq (vseq (.ok mk) c1) c2) c3) c4) c5 = .ok b ↔
      ∃ a1 a2 a3 a4 a5, c1 = .ok a1 ∧ c2 = .ok a2 ∧ c3 = .ok a3 ∧
        c4 = .ok a4 ∧ c5 = .ok a5 ∧ mk a1 a2 a3 a4 a5 = b := by
  cases c1 <;> cases c2 <;> cases c3 <;> cases c4 <;> cases c5 <;> simp [vseq]

theorem vseq6_eq_ok {α1 α2 α3 α4 α5 α6 β : Type}
    {mk : α1 → α2 → α3 → α4 → α5 → α6 → β} {c1 : Validated α1}
    {c2 : Validated α2} {c3 : Validated α3} {c4 : Validated α4}
    {c5 : Validated α5} {c6 : Validated α6} {b : β} :
    vseq (vseq (vseq (vseq (vseq (vseq (.ok mk) c1) c2) c3) c4) c5) c6 = .ok b ↔
      ∃ a1 a2 a3 a4 a5 a6, c1 = .ok a1 ∧ c2 = .ok a2 ∧ c3 = .ok a3 ∧
        c4 = .ok a4 ∧ c5 = .ok a5 ∧ c6 = .ok a6 ∧ mk a1 a2 a3 a4 a5 a6 = b := by
  cases c1 <;> cases c2 <;> cases c3 <;> cases c4 <;> cases c5 <;> cases c6 <;>
    simp [vseq]

/-! Validated values are well formed. -/

theorem person_validate_WF {g : Gen} {j : Json} {p : PersonBase} :
    PersonBase.validate g j = .ok p → p.WF = true := by
  match j with
  | .null => simp [PersonBase.validate]
  | .str s => simp [PersonBase.validate]
  | .date d => simp [PersonBase.validate]
  | .dtime t => simp [PersonBase.validate]
  | .arr xs => simp [PersonBase.validate]
  | .obj fs =>
    intro h
    simp only [PersonBase.validate] at h
    rw [vseq5_eq_ok] at h
    obtain ⟨u, fn, ln, em, ads, h1, _, _, h4, _, hmk⟩ := h
    subst hmk
    have hu := reqUni_ok (inField_eq_ok.mp h1)
    have he := reqEmail_ok (inField_eq_ok.mp h4)
    simp [PersonBase.WF, hu, he]

theorem coursework_validate_WF {g : Gen} {j : Json} {c : CourseworkBase} :
    CourseworkBase.validate g j = .ok c → c.WF = true := by
  match j with
  | .null => simp [CourseworkBase.validate]
  | .str s => simp [CourseworkBase.validate]
  | .date d => simp [CourseworkBase.validate]
  | .dtime t => simp [CourseworkBase.validate]
  | .arr xs => simp [CourseworkBase.validate]
  | .obj fs =>
    intro h
    simp only [CourseworkBase.validate] at h
    rw [vseq5_eq_ok] at h
    obtain ⟨i, t, s, prof, ppl, _, _, _, h4, h5, hmk⟩ := h
    subst hmk
    have hprof : prof.WF = true := by
      cases hp : findField fs "professor" with
      | none => rw [hp] at h4; exact absurd h4 (by simp)
      | some pj =>
        rw [hp] at h4
        exact person_validate_WF (inField_eq_ok.mp h4)
    have hppl : ∀ y ∈ ppl, PersonBase.WF y = true := by
      rw [inField_eq_ok] at h5
      cases hq : findField fs "people" with
      | none =>
        rw [hq] at h5
        have : ppl = [] := by simpa using h5.symm
        simp [this]
      | some v =>
        rw [hq] at h5
        match v with
        | .null => exact absurd h5 (by simp)
        | .str s2 => exact absurd h5 (by simp)
        | .date d => exact absurd h5 (by simp)
        | .dtime t2 => exact absurd h5 (by simp)
        | .obj fs2 => exact absurd h5 (by simp)
        | .arr xs =>
          exact vList_ok_forall _ (fun y => PersonBase.WF y = true)
            (fun i x y hxy => person_validate_WF (inField_eq_ok.mp hxy))
            xs 0 ppl h5
    simp only [CourseworkBase.WF]
    rw [Bool.and_eq_true]
    exact ⟨hprof, List.all_eq_true.mpr (fun y hy => hppl y hy)⟩

theorem assignment_validate_WF {g : Gen} {j : Json} {a : AssignmentBase} :
    AssignmentBase.validate g j = .ok a → a.WF = true := by
  match j with
  | .null => simp [AssignmentBase.validate]
  | .str s => simp [AssignmentBase.validate]
  | .date d => simp [AssignmentBase.validate]
  | .dtime t => simp [AssignmentBase.validate]
  | .arr xs => simp [AssignmentBase.validate]
  | .obj fs =>
    intro h
    simp only [AssignmentBase.validate] at h
    rw [vseq6_eq_ok] at h
    obtain ⟨i, t, d, dd, cw, ca, _, _, _, _, h5, _, hmk⟩ := h
    subst hmk
    have hcw : cw.WF = true := by
      cases hc : findField fs "coursework" with
      | none => rw [hc] at h5; exact absurd h5 (by simp)
      | some cj =>
        rw [hc] at h5
        exact coursework_validate_WF (inField_eq_ok.mp h5)
    simpa [AssignmentBase.WF] using hcw

theorem person_serialize_validate (g : Gen) (p : PersonBase) (h : p.WF = true) :
    PersonBase.validate g p.serialize = .ok p := by
  obtain ⟨u, fn, ln, em, ads⟩ := p
  simp only [PersonBase.WF] at h
  rw [Bool.and_eq_true] at h
  obtain ⟨hu, he⟩ := h
  have hu' : ¬(u = "") := by simpa using hu
  have hads : vList (fun i x => inField (toString i) (Address.validate (g.split i) x)) 0
      (ads.map Address.serialize) = .ok ads :=
    vList_map_ok _ _ _ (fun i a _ => by simp [address_serialize_validate, inField]) 0
  simp [PersonBase.serialize, PersonBase.validate, findField, reqUni, reqEmail,
        reqString, hu', he, hads, inField_ok, vseq_ok_ok]

theorem coursework_serialize_validate (g : Gen) (c : CourseworkBase)
    (h : c.WF = true) : CourseworkBase.validate g c.serialize = .ok c := by
  obtain ⟨i, t, s, prof, ppl⟩ := c
  simp only [CourseworkBase.WF] at h
  rw [Bool.and_eq_true] at h
  obtain ⟨hprof, hppl⟩ := h
  have hp : PersonBase.validate (g.split 1) prof.serialize = .ok prof :=
    person_serialize_validate _ _ hprof
  have hlist : vList
      (fun i x => inField (toString i) (PersonBase.validate ((g.split 2).split i) x)) 0
      (ppl.map PersonBase.serialize) = .ok ppl :=
    vList_map_ok _ _ _
      (fun i a ha => by
        simp [person_serialize_validate _ _ (List.all_eq_true.mp hppl a ha), inField]) 0
  simp [CourseworkBase.serialize, CourseworkBase.validate, findField, uuidOr_val,
        reqString, hp, hlist, inField_ok, vseq_ok_ok]

theorem assignment_serialize_validate (g : Gen) (a : AssignmentBase)
    (h : a.WF = true) : AssignmentBase.validate g a.serialize = .ok a := by
  obtain ⟨i, t, d, dd, cw, ca⟩ := a
  simp only [AssignmentBase.WF] at h
  have hc : CourseworkBase.validate (g.split 1) cw.serialize = .ok cw :=
    coursework_serialize_validate _ _ h
  simp [AssignmentBase.serialize, AssignmentBase.validate, findField, uuidOr_val,
        reqString, reqDate, dtimeOr, hc, inField_ok, vseq_ok_ok]

/-! On documents that explicitly supply every server-defaulted field, the
validators never consult the defaults source. -/

theorem address_validate_genIrrel {j : Json}
    (h : j.suppliesAddressDefaults = true) (g g' : Gen) :
    Address.validate g j = Address.validate g' j := by
  match j with
  | .null => rfl
  | .str s => rfl
  | .date d => rfl
  | .dtime t => rfl
  | .arr xs => rfl
  | .obj fs =>
    simp only [Json.suppliesAddressDefaults] at h
    simp only [Address.validate]
    refine congrArg₂ vseq (congrArg₂ vseq (congrArg₂ vseq (congrArg₂ vseq
      (congrArg₂ vseq (congrArg₂ vseq rfl (congrArg (inField "id") ?_)) rfl) rfl)
      rfl) rfl) rfl
    cases hf : findField fs "id" with
    | none => rw [hf] at h; exact absurd h (by simp)
    | some v => exact uuidOr_some _ _ v

theorem person_validate_genIrrel {j : Json}
    (h : j.suppliesPersonDefaults = true) (g g' : Gen) :
    PersonBase.validate g j = PersonBase.validate g' j := by
  match j with
  | .null => rfl
  | .str s => rfl
  | .date d => rfl
  | .dtime t => rfl
  | .arr xs => rfl
  | .obj fs =>
    simp only [Json.suppliesPersonDefaults] at h
    simp only [PersonBase.validate]
    refine congrArg₂ vseq rfl (congrArg (inField "addresses") ?_)
    cases hq : findField fs "addresses" with
    | none => rfl
    | some v =>
      rw [hq] at h
      match v with
      | .null => rfl
      | .str s => rfl
      | .date d => rfl
      | .dtime t => rfl
      | .obj fs2 => rfl
      | .arr xs =>
        simp only at h
        exact vList_congr _ _ xs 0 (fun i x hx =>
          congrArg (inField (toString i))
            (address_validate_genIrrel (List.all_eq_true.mp h x hx)
              (g.split i) (g'.split i)))

theorem coursework_validate_genIrrel {j : Json}
    (h : j.suppliesCourseworkDefaults = true) (g g' : Gen) :
    CourseworkBase.validate g j = CourseworkBase.validate g' j := by
  match j with
  | .null => rfl
  | .str s => rfl
  | .date d => rfl
  | .dtime t => rfl
  | .arr xs => rfl
  | .obj fs =>
    simp only [Json.suppliesCourseworkDefaults] at h
    rw [Bool.and_eq_true, Bool.and_eq_true] at h
    obtain ⟨⟨hid, hprof⟩, hppl⟩ := h
    simp only [CourseworkBase.validate]
    refine congrArg₂ vseq (congrArg₂ vseq (congrArg₂ vseq (congrArg₂ vseq
      (congrArg₂ vseq rfl (congrArg (inField "id") ?_)) rfl) rfl) ?_)
      (congrArg (inField "people") ?_)
    · cases hf : findField fs "id" with
      | none => rw [hf] at hid; exact absurd hid (by simp)
      | some v => exact uuidOr_some _ _ v
    · cases hp : findField fs "professor" with
      | none => rfl
      | some pj =>
        rw [hp] at hprof
        simp only at hprof
        exact congrArg (inField "professor")
          (person_validate_genIrrel hprof (g.split 1) (g'.split 1))
    · cases hq : findField fs "people" with
      | none => rfl
      | some v =>
        rw [hq] at hppl
        match v with
        | .null => rfl
        | .str s => rfl
        | .date d => rfl
        | .dtime t => rfl
        | .obj fs2 => rfl
        | .arr xs =>
          simp only at hppl
          exact vList_congr _ _ xs 0 (fun i x hx =>
            congrArg (inField (toString i))
              (person_validate_genIrrel (List.all_eq_true.mp hppl x hx)
                ((g.split 2).split i) ((g'.split 2).split i)))

theorem assignment_validate_genIrrel {j : Json}
    (h : j.suppliesAssignmentDefaults = true) (g g' : Gen) :
    AssignmentBase.validate g j = AssignmentBase.validate g' j := by
  match j with
  | .null => rfl
  | .str s => rfl
  | .date d => rfl
  | .dtime t => rfl
  | .arr xs => rfl
  | .obj fs =>
    simp only [Json.suppliesAssignmentDefaults] at h
    rw [Bool.and_eq_true, Bool.and_eq_true] at h
    obtain ⟨⟨hid, hca⟩, hcw⟩ := h
    simp only [AssignmentBase.validate]
    refine congrArg₂ vseq (congrArg₂ vseq (congrArg₂ vseq (congrArg₂ vseq
      (congrArg₂ vseq (congrArg₂ vseq rfl (congrArg (inField "id") ?_)) rfl)
      rfl) rfl) ?_) (congrArg (inField "created_at") ?_)
    · cases hf : findField fs "id" with
      | none => rw [hf] at hid; exact absurd hid (by simp)
      | some v => exact uuidOr_some _ _ v
    · cases hc : findField fs "coursework" with
      | none => rfl
      | some cj =>
        rw [hc] at hcw
        simp only at hcw
        exact congrArg (inField "coursework")
          (coursework_validate_genIrrel hcw (g.split 1) (g'.split 1))
    · cases hc : findField fs "created_at" with
      | none => rw [hc] at hca; exact absurd hca (by simp)
      | some v => exact dtimeOr_some _ _ v

theorem assignment_update_validate_genIrrel {j : Json}
    (h : j.suppliesAssignmentUpdateDefaults = true) (g g' : Gen) :
    AssignmentUpdate.validate g j = AssignmentUpdate.validate g' j := by
  match j with
  | .null => rfl
  | .str s => rfl
  | .date d => rfl
  | .dtime t => rfl
  | .arr xs => rfl
  | .obj fs =>
    simp only [Json.suppliesAssignmentUpdateDefaults] at h
    rw [Bool.and_eq_true] at h
    obtain ⟨hid, hcw⟩ := h
    simp only [AssignmentUpdate.validate]
    refine congrArg₂ vseq (congrArg₂ vseq (congrArg₂ vseq (congrArg₂ vseq
      (congrArg₂ vseq (congrArg₂ vseq rfl (congrArg (inField "id") ?_)) rfl)
      rfl) rfl) ?_) rfl
    · cases hf : findField fs "id" with
      | none => rw [hf] at hid; exact absurd hid (by simp)
      | some v => exact optUUIDOr_some _ _ v
    · cases hc : findField fs "coursework" with
      | none => rfl
      | some v =>
        rw [hc] at hcw
        simp only at hcw
        match v with
        | .null => rfl
        | .str s => exact congrArg (vmap some) (congrArg (inField "coursework")
            (coursework_validate_genIrrel hcw (g.split 1) (g'.split 1)))
        | .date d => exact congrArg (vmap some) (congrArg (inField "coursework")
            (coursework_validate_genIrrel hcw (g.split 1) (g'.split 1)))
        | .dtime t => exact congrArg (vmap some) (congrArg (inField "coursework")
            (coursework_validate_genIrrel hcw (g.split 1) (g'.split 1)))
        | .arr xs => exact congrArg (vmap some) (congrArg (inField "coursework")
            (coursework_validate_genIrrel hcw (g.split 1) (g'.split 1)))
        | .obj fs2 => exact congrArg (vmap some) (congrArg (inField "coursework")
            (coursework_validate_genIrrel hcw (g.split 1) (g'.split 1)))

theorem coursework_update_validate_genIrrel {j : Json}
    (h : j.suppliesCourseworkUpdateDefaults = true) (g g' : Gen) :
    CourseworkUpdate.validate g j = CourseworkUpdate.validate g' j := by
  match j with
  | .null => rfl
  | .str s => rfl
  | .date d => rfl
  | .dtime t => rfl
  | .arr xs => rfl
  | .obj fs =>
    simp only [Json.suppliesCourseworkUpdateDefaults] at h
    rw [Bool.and_eq_true, Bool.and_eq_true] at h
    obtain ⟨⟨hca, hprof⟩, hppl⟩ := h
    simp only [CourseworkUpdate.validate]
    refine congrArg₂ vseq (congrArg₂ vseq (congrArg₂ vseq rfl ?_) ?_)
      (congrArg (inField "created_at") ?_)
    · cases hp : findField fs "professor" with
      | none => rfl
      | some v =>
        rw [hp] at hprof
        simp only at hprof
        match v with
        | .null => rfl
        | .str s => exact congrArg (vmap some) (congrArg (inField "professor")
            (person_validate_genIrrel hprof (g.split 1) (g'.split 1)))
        | .date d => exact congrArg (vmap some) (congrArg (inField "professor")
            (person_validate_genIrrel hprof (g.split 1) (g'.split 1)))
        | .dtime t => exact congrArg (vmap some) (congrArg (inField "professor")
            (person_validate_genIrrel hprof (g.split 1) (g'.split 1)))
        | .arr xs => exact congrArg (vmap some) (congrArg (inField "professor")
            (person_validate_genIrrel hprof (g.split 1) (g'.split 1)))
        | .obj fs2 => exact congrArg (vmap some) (congrArg (inField "professor")
            (person_validate_genIrrel hprof (g.split 1) (g'.split 1)))
    · cases hq : findField fs "people" with
      | none => rfl
      | some v =>
        rw [hq] at hppl
        match v with
        | .null => rfl
        | .str s => rfl
        | .date d => rfl
        | .dtime t => rfl
        | .obj fs2 => rfl
        | .arr xs =>
          simp only at hppl
          exact congrArg (vmap some) (congrArg (inField "people")
            (vList_congr _ _ xs 0 (fun i x hx =>
              congrArg (inField (toString i))
                (person_validate_genIrrel (List.all_eq_true.mp hppl x hx)
                  ((g.split 2).split i) ((g'.split 2).split i)))))
    · cases hc : findField fs "created_at" with
      | none => rw [hc] at hca; exact absurd hca (by simp)
      | some v => exact dtimeOr_some _ _ v

/-! Error-path propagation lemmas. -/

theorem person_email_err {g : Gen} {fs : List (String × Json)} {e : String}
    (he : findField fs "email" = some (.str e)) (hbad : isValidEmail e = false) :
    ["email"] ∈ errsOf (PersonBase.validate g (.obj fs)) := by
  simp only [PersonBase.validate]
  simp [errsOf_vseq, errsOf_inField, he, reqEmail, hbad, errsOf_err, errsOf_pure]

theorem coursework_prof_err {g : Gen} {fs : List (String × Json)} {pj : Json}
    {p : FieldPath} (hp : findField fs "professor" = some pj)
    (hmem : p ∈ errsOf (PersonBase.validate (g.split 1) pj)) :
    ("professor" :: p) ∈ errsOf (CourseworkBase.validate g (.obj fs)) := by
  simp only [CourseworkBase.validate]
  simp only [errsOf_vseq, errsOf_inField, hp, List.mem_append]
  refine Or.inl (Or.inr ?_)
  simpa [errsOf_inField] using List.mem_map_of_mem (fun q => "professor" :: q) hmem

theorem assignment_cw_err {g : Gen} {fs : List (String × Json)} {cj : Json}
    {p : FieldPath} (hc : findField fs "coursework" = some cj)
    (hmem : p ∈ errsOf (CourseworkBase.validate (g.split 1) cj)) :
    ("coursework" :: p) ∈ errsOf (AssignmentBase.validate g (.obj fs)) := by
  simp only [AssignmentBase.validate]
  simp only [errsOf_vseq, errsOf_inField, hc, List.mem_append]
  refine Or.inl (Or.inr ?_)
  simpa [errsOf_inField] using List.mem_map_of_mem (fun q => "coursework" :: q) hmem

/-! Missing-required-field failure lemmas. -/

theorem assignment_no_title_fails {g : Gen} {fs : List (String × Json)}
    (h : findField fs "title" = none) :
    isOkV (AssignmentBase.validate g (.obj fs)) = false := by
  simp only [AssignmentBase.validate]
  simp [isOkV_vseq, isOkV_inField, h, reqString, isOkV_err]

theorem assignment_no_description_fails {g : Gen} {fs : List (String × Json)}
    (h : findField fs "description" = none) :
    isOkV (AssignmentBase.validate g (.obj fs)) = false := by
  simp only [AssignmentBase.validate]
  simp [isOkV_vseq, isOkV_inField, h, reqString, isOkV_err]

theorem assignment_no_due_date_fails {g : Gen} {fs : List (String × Json)}
    (h : findField fs "due_date" = none) :
    isOkV (AssignmentBase.validate g (.obj fs)) = false := by
  simp only [AssignmentBase.validate]
  simp [isOkV_vseq, isOkV_inField, h, reqDate, isOkV_err]

theorem coursework_no_title_fails {g : Gen} {fs : List (String × Json)}
    (h : findField fs "title" = none) :
    isOkV (CourseworkBase.validate g (.obj fs)) = false := by
  simp only [CourseworkBase.validate]
  simp [isOkV_vseq, isOkV_inField, h, reqString, isOkV_err]

theorem coursework_no_semester_fails {g : Gen} {fs : List (String × Json)}
    (h : findField fs "semester" = none) :
    isOkV (CourseworkBase.validate g (.obj fs)) = false := by
  simp only [CourseworkBase.validate]
  simp [isOkV_vseq, isOkV_inField, h, reqString, isOkV_err]

/-! Keys of the serialized variants. -/

theorem assignmentBase_keys (a : AssignmentBase) :
    (AssignmentBase.serialize a).keys =
      ["id", "title", "description", "due_date", "coursework", "created_at"] := rfl

theorem assignmentRead_keys (r : AssignmentRead) :
    (AssignmentRead.serialize r).keys =
      ["id", "title", "description", "due_date", "coursework", "created_at",
       "updated_at"] := rfl

theorem courseworkBase_keys (c : CourseworkBase) :
    (CourseworkBase.serialize c).keys =
      ["id", "title", "semester", "professor", "people"] := rfl

theorem courseworkRead_keys (r : CourseworkRead) :
    (CourseworkRead.serialize r).keys =
      ["id", "title", "semester", "professor", "people", "updated_at"] := rfl

theorem courseworkUpdate_keys (u : CourseworkUpdate) :
    (CourseworkUpdate.serialize u).keys =
      ["title", "semester", "professor", "people", "created_at"] := rfl

theorem parseUUID_ok {s : String} {u : UUID} : parseUUID s = some u → u.val = s := by
  simp only [parseUUID]
  split
  · intro h
    rw [Option.some.injEq] at h
    subst h
    rfl
  · simp

/-! The claims. -/

/-- C1 counterexample: the claim that every entity's `Read` variant carries
`created_at` and its `Base`/`Create` variants carry `created_at` is false for
Coursework: a concrete serialized `CourseworkRead` (and `CourseworkBase`)
carries no `created_at` key at all. -/
theorem coursework_read_omits_created_at :
    "created_at" ∉ (CourseworkRead.serialize sampleCourseworkRead).keys ∧
      "created_at" ∉ (CourseworkBase.serialize sampleCoursework).keys := by
  decide

/-- C1 (amended): `AssignmentBase`/`AssignmentCreate` carry `created_at` and
no `updated_at`, and `AssignmentRead` carries both; but the Coursework
variants carry no `created_at` at all: `CourseworkBase`/`CourseworkCreate`
carry neither timestamp and `CourseworkRead` carries only `updated_at`. -/
theorem read_variants_timestamp_keys (ab : AssignmentBase) (ar : AssignmentRead)
    (cb : CourseworkBase) (cr : CourseworkRead) :
    ("created_at" ∈ (AssignmentBase.serialize ab).keys ∧
      "updated_at" ∉ (AssignmentBase.serialize ab).keys) ∧
    ("created_at" ∈ (AssignmentRead.serialize ar).keys ∧
      "updated_at" ∈ (AssignmentRead.serialize ar).keys) ∧
    ("created_at" ∉ (CourseworkBase.serialize cb).keys ∧
      "updated_at" ∉ (CourseworkBase.serialize cb).keys) ∧
    ("created_at" ∉ (CourseworkRead.serialize cr).keys ∧
      "updated_at" ∈ (CourseworkRead.serialize cr).keys) := by
  simp [assignmentBase_keys, assignmentRead_keys, courseworkBase_keys,
        courseworkRead_keys]

/-- C2 counterexample: `id` does not appear on `CourseworkUpdate`: a patch
document mentioning only `id` validates to the same record as the empty
patch (the key is ignored, not bound), and no serialized `CourseworkUpdate`
carries an `id` key. -/
theorem coursework_update_ignores_id :
    CourseworkUpdate.validate genA
        (.obj [("id", Json.str "99999999-9999-4999-8999-999999999999")]) =
      .ok ⟨none, none, none, none, t0⟩ ∧
    "id" ∉ (CourseworkUpdate.serialize ⟨none, none, none, none, t0⟩).keys := by
  exact ⟨rfl, by decide⟩

/-- C2 (amended): every field of `CourseworkBase` except `id` (`title`,
`semester`, `professor`, `people`) appears on `CourseworkUpdate` as an
optional field: the empty patch validates, and a patch mentioning exactly
one of these fields validates with that field bound; `id` does not appear on
`CourseworkUpdate` at all. -/
theorem coursework_update_optional_fields (g : Gen) :
    CourseworkUpdate.validate g (.obj []) = .ok ⟨none, none, none, none, g.now⟩ ∧
    (∀ s, CourseworkUpdate.validate g (.obj [("title", .str s)]) =
      .ok ⟨some s, none, none, none, g.now⟩) ∧
    (∀ s, CourseworkUpdate.validate g (.obj [("semester", .str s)]) =
      .ok ⟨none, some s, none, none, g.now⟩) ∧
    (∀ pfs p, PersonBase.validate (g.split 1) (.obj pfs) = .ok p →
      CourseworkUpdate.validate g (.obj [("professor", .obj pfs)]) =
        .ok ⟨none, none, some p, none, g.now⟩) ∧
    (∀ xs ps,
      vList (fun i x => inField (toString i)
        (PersonBase.validate ((g.split 2).split i) x)) 0 xs = .ok ps →
      CourseworkUpdate.validate g (.obj [("people", .arr xs)]) =
        .ok ⟨none, none, none, some ps, g.now⟩) ∧
    (∀ u : CourseworkUpdate, "id" ∉ (CourseworkUpdate.serialize u).keys) := by
  refine ⟨rfl, fun s => rfl, fun s => rfl, ?_, ?_, ?_⟩
  · intro pfs p h
    simp [CourseworkUpdate.validate, findField, h, inField_ok, vseq_ok_ok, vmap,
          optString, dtimeOr]
  · intro xs ps h
    simp [CourseworkUpdate.validate, findField, h, inField_ok, vseq_ok_ok, vmap,
          optString, dtimeOr]
  · intro u
    simp [courseworkUpdate_keys]

/-- C2 witness. -/
theorem coursework_update_optional_fields_witness :
    CourseworkUpdate.validate genA (.obj [("professor", .obj goodProfFields)]) =
      .ok ⟨none, none, some samplePerson, none, t0⟩ ∧
    CourseworkUpdate.validate genA (.obj [("people", .arr [.obj goodProfFields])]) =
      .ok ⟨none, none, none, some [samplePerson], t0⟩ := by
  exact ⟨(coursework_update_optional_fields genA).2.2.2.1 goodProfFields
           samplePerson (by decide),
         (coursework_update_optional_fields genA).2.2.2.2.1 [.obj goodProfFields]
           [samplePerson] (by decide)⟩

/-- C4: an otherwise-valid Create input without `id` validates and receives
the freshly drawn, well-formed UUID; a supplied textual UUID is accepted
verbatim; and the section 8 example validates as `AssignmentCreate` with the
fresh `id`, the current-time `created_at`, and `coursework.people = []`. -/
theorem create_id_defaulting (g : Gen) :
    (∀ fs a, findField fs "id" = none →
      AssignmentCreate.validate g (.obj fs) = .ok a → a.id = g.uuid 0) ∧
    (∀ fs s a, findField fs "id" = some (.str s) →
      AssignmentCreate.validate g (.obj fs) = .ok a → a.id.val = s) ∧
    isValidUUID (g.uuid 0).val = true ∧
    AssignmentCreate.validate g ex8 = .ok (ex8Result g) := by
  refine ⟨?_, ?_, (g.uuid 0).property, rfl⟩
  · intro fs a hfind h
    have h' : AssignmentBase.validate g (.obj fs) = .ok a := h
    simp only [AssignmentBase.validate] at h'
    rw [vseq6_eq_ok] at h'
    obtain ⟨i, _, _, _, _, _, h1, _, _, _, _, _, hmk⟩ := h'
    subst hmk
    rw [inField_eq_ok, hfind] at h1
    simp only [uuidOr] at h1
    rw [Except.ok.injEq] at h1
    exact h1.symm
  · intro fs s a hfind h
    have h' : AssignmentBase.validate g (.obj fs) = .ok a := h
    simp only [AssignmentBase.validate] at h'
    rw [vseq6_eq_ok] at h'
    obtain ⟨i, _, _, _, _, _, h1, _, _, _, _, _, hmk⟩ := h'
    subst hmk
    rw [inField_eq_ok, hfind] at h1
    simp only [uuidOr] at h1
    cases hp : parseUUID s with
    | none => rw [hp] at h1; exact absurd h1 (by simp)
    | some u =>
      rw [hp] at h1
      rw [Except.ok.injEq] at h1
      subst h1
      exact parseUUID_ok hp

/-- C4 witness. -/
theorem create_id_defaulting_witness :
    (ex8Result genA).id = genA.uuid 0 ∧
    ex8IdResult.id.val = "550e8400-e29b-41d4-a716-446655440000" := by
  exact ⟨(create_id_defaulting genA).1 ex8Fields (ex8Result genA) rfl
           ((create_id_defaulting genA).2.2.2),
         (create_id_defaulting genA).2.1 ex8IdFields
           "550e8400-e29b-41d4-a716-446655440000" ex8IdResult rfl (by decide)⟩

/-- C5: a document that validates as `AssignmentCreate` serializes and
re-validates to the field-for-field identical record, regardless of the
fresh-default draw of the second validation; the server-assigned `id` is
well formed, and `id` and `created_at` are always present in the serialized
form even when absent from the original input. -/
theorem assignment_create_roundtrip (g g' : Gen) (j : Json) (a : AssignmentCreate)
    (h : AssignmentCreate.validate g j = .ok a) :
    AssignmentCreate.validate g' (AssignmentBase.serialize a) = .ok a ∧
    isValidUUID a.id.val = true ∧
    (AssignmentBase.serialize a).hasKey "id" = true ∧
    (AssignmentBase.serialize a).hasKey "created_at" = true := by
  have h' : AssignmentBase.validate g j = .ok a := h
  have hWF : a.WF = true := assignment_validate_WF h'
  exact ⟨assignment_serialize_validate g' a hWF, a.id.property, rfl, rfl⟩

/-- C5 witness. -/
theorem assignment_create_roundtrip_witness :
    AssignmentCreate.validate genB (AssignmentBase.serialize (ex8Result genA)) =
      .ok (ex8Result genA) ∧
    isValidUUID (ex8Result genA).id.val = true ∧
    (AssignmentBase.serialize (ex8Result genA)).hasKey "id" = true ∧
    (AssignmentBase.serialize (ex8Result genA)).hasKey "created_at" = true :=
  assignment_create_roundtrip genA genB ex8 (ex8Result genA) (by decide)

/-- C6: an Assignment document whose nested `coursework.professor.email` is
present but malformed fails validation, and the collected errors contain the
field path `coursework.professor.email`. -/
theorem nested_email_error_path (g : Gen) (fs cfs pfs : List (String × Json))
    (e : String) (hcw : findField fs "coursework" = some (.obj cfs))
    (hpr : findField cfs "professor" = some (.obj pfs))
    (hem : findField pfs "email" = some (.str e))
    (hbad : isValidEmail e = false) :
    ∃ errs, AssignmentCreate.validate g (.obj fs) = .error errs ∧
      ["coursework", "professor", "email"] ∈ errs := by
  have h1 : ["email"] ∈ errsOf (PersonBase.validate ((g.split 1).split 1) (.obj pfs)) :=
    person_email_err hem hbad
  have h2 := coursework_prof_err (g := g.split 1) hpr h1
  have h3 := assignment_cw_err (g := g) hcw h2
  exact eq_error_of_mem_errsOf h3

/-- C6 witness. -/
theorem nested_email_error_path_witness :
    ∃ errs, AssignmentCreate.validate genA (.obj badAsgFields) = .error errs ∧
      ["coursework", "professor", "email"] ∈ errs :=
  nested_email_error_path genA badAsgFields badCwFields badProfFields "bad"
    rfl rfl rfl (by decide)

/-- C7 counterexample: validate-and-construct is not a function of the input
document alone: the same empty patch document validated twice under
different fresh-default draws yields different `AssignmentUpdate` results. -/
theorem validate_depends_on_fresh_defaults :
    AssignmentUpdate.validate genA (.obj []) ≠
      AssignmentUpdate.validate genB (.obj []) := by
  decide

/-- C7 (amended): each validate-and-construct operation is a side-effect-free
function of the input document together with the per-invocation fresh
defaults it draws; on documents that explicitly supply every
server-defaulted field, every validator of the layer — the embedded Address
and Person validators, and the Create and Update validators of Coursework
and Assignment — gives the same result under any two draws.  (The
reshape-to-Read serializers take no defaults source at all.) -/
theorem validate_pure_given_supplied_defaults (g g' : Gen) (j : Json) :
    (j.suppliesAddressDefaults = true →
      Address.validate g j = Address.validate g' j) ∧
    (j.suppliesPersonDefaults = true →
      PersonBase.validate g j = PersonBase.validate g' j) ∧
    (j.suppliesCourseworkDefaults = true →
      CourseworkCreate.validate g j = CourseworkCreate.validate g' j) ∧
    (j.suppliesCourseworkUpdateDefaults = true →
      CourseworkUpdate.validate g j = CourseworkUpdate.validate g' j) ∧
    (j.suppliesAssignmentDefaults = true →
      AssignmentCreate.validate g j = AssignmentCreate.validate g' j) ∧
    (j.suppliesAssignmentUpdateDefaults = true →
      AssignmentUpdate.validate g j = AssignmentUpdate.validate g' j) :=
  ⟨fun h => address_validate_genIrrel h g g',
   fun h => person_validate_genIrrel h g g',
   fun h => coursework_validate_genIrrel h g g',
   fun h => coursework_update_validate_genIrrel h g g',
   fun h => assignment_validate_genIrrel h g g',
   fun h => assignment_update_validate_genIrrel h g g'⟩

/-- C7 witness. -/
theorem validate_pure_given_supplied_defaults_witness :
    Address.validate genA (.obj fullAsgFields) =
      Address.validate genB (.obj fullAsgFields) ∧
    PersonBase.validate genA (.obj fullAsgFields) =
      PersonBase.validate genB (.obj fullAsgFields) ∧
    CourseworkCreate.validate genA (.obj fullAsgFields) =
      CourseworkCreate.validate genB (.obj fullAsgFields) ∧
    CourseworkUpdate.validate genA (.obj fullAsgFields) =
      CourseworkUpdate.validate genB (.obj fullAsgFields) ∧
    AssignmentCreate.validate genA (.obj fullAsgFields) =
      AssignmentCreate.validate genB (.obj fullAsgFields) ∧
    AssignmentUpdate.validate genA (.obj fullAsgFields) =
      AssignmentUpdate.validate genB (.obj fullAsgFields) :=
  ⟨(validate_pure_given_supplied_defaults genA genB (.obj fullAsgFields)).1
     (by decide),
   (validate_pure_given_supplied_defaults genA genB (.obj fullAsgFields)).2.1
     (by decide),
   (validate_pure_given_supplied_defaults genA genB (.obj fullAsgFields)).2.2.1
     (by decide),
   (validate_pure_given_supplied_defaults genA genB (.obj fullAsgFields)).2.2.2.1
     (by decide),
   (validate_pure_given_supplied_defaults genA genB (.obj fullAsgFields)).2.2.2.2.1
     (by decide),
   (validate_pure_given_supplied_defaults genA genB (.obj fullAsgFields)).2.2.2.2.2
     (by decide)⟩

/-- C3: omitting a required field — `title`, `description` or `due_date` on
an Assignment document, `title` or `semester` on a Coursework document —
makes validate-and-construct of the Create variant fail with a validation
error; no default is silently substituted. -/
theorem missing_required_field_fails (g : Gen) (j : Json) :
    (j.hasKey "title" = false → ∃ e, AssignmentCreate.validate g j = .error e) ∧
    (j.hasKey "description" = false → ∃ e, AssignmentCreate.validate g j = .error e) ∧
    (j.hasKey "due_date" = false → ∃ e, AssignmentCreate.validate g j = .error e) ∧
    (j.hasKey "title" = false → ∃ e, CourseworkCreate.validate g j = .error e) ∧
    (j.hasKey "semester" = false → ∃ e, CourseworkCreate.validate g j = .error e) := by
  match j with
  | .null => exact ⟨fun _ => ⟨[[]], rfl⟩, fun _ => ⟨[[]], rfl⟩, fun _ => ⟨[[]], rfl⟩,
      fun _ => ⟨[[]], rfl⟩, fun _ => ⟨[[]], rfl⟩⟩
  | .str s => exact ⟨fun _ => ⟨[[]], rfl⟩, fun _ => ⟨[[]], rfl⟩, fun _ => ⟨[[]], rfl⟩,
      fun _ => ⟨[[]], rfl⟩, fun _ => ⟨[[]], rfl⟩⟩
  | .date d => exact ⟨fun _ => ⟨[[]], rfl⟩, fun _ => ⟨[[]], rfl⟩, fun _ => ⟨[[]], rfl⟩,
      fun _ => ⟨[[]], rfl⟩, fun _ => ⟨[[]], rfl⟩⟩
  | .dtime t => exact ⟨fun _ => ⟨[[]], rfl⟩, fun _ => ⟨[[]], rfl⟩, fun _ => ⟨[[]], rfl⟩,
      fun _ => ⟨[[]], rfl⟩, fun _ => ⟨[[]], rfl⟩⟩
  | .arr xs => exact ⟨fun _ => ⟨[[]], rfl⟩, fun _ => ⟨[[]], rfl⟩, fun _ => ⟨[[]], rfl⟩,
      fun _ => ⟨[[]], rfl⟩, fun _ => ⟨[[]], rfl⟩⟩
  | .obj fs =>
    have key : ∀ k : String, Json.hasKey (.obj fs) k = false → findField fs k = none := by
      intro k hk
      cases hf : findField fs k with
      | none => rfl
      | some v => rw [Json.hasKey, Json.getField, hf] at hk; simp at hk
    refine ⟨fun hk => ?_, fun hk => ?_, fun hk => ?_, fun hk => ?_, fun hk => ?_⟩
    · exact eq_error_of_isOkV_false (assignment_no_title_fails (key _ hk))
    · exact eq_error_of_isOkV_false (assignment_no_description_fails (key _ hk))
    · exact eq_error_of_isOkV_false (assignment_no_due_date_fails (key _ hk))
    · exact eq_error_of_isOkV_false (coursework_no_title_fails (key _ hk))
    · exact eq_error_of_isOkV_false (coursework_no_semester_fails (key _ hk))

/-- C3 witness. -/
theorem missing_required_field_fails_witness :
    (∃ e, AssignmentCreate.validate genA (.obj [("title", .str "t")]) = .error e) ∧
    (∃ e, AssignmentCreate.validate genA (.obj [("description", .str "d")]) = .error e) ∧
    (∃ e, AssignmentCreate.validate genA (.obj [("due_date", .str "2025-12-31")]) = .error e) ∧
    (∃ e, CourseworkCreate.validate genA (.obj [("title", .str "t")]) = .error e) ∧
    (∃ e, CourseworkCreate.validate genA (.obj [("semester", .str "s")]) = .error e) := by
  exact ⟨(missing_required_field_fails genA (.obj [("title", .str "t")])).2.1 rfl,
         (missing_required_field_fails genA (.obj [("description", .str "d")])).1 rfl,
         (missing_required_field_fails genA (.obj [("due_date", .str "2025-12-31")])).1 rfl,
         (missing_required_field_fails genA (.obj [("title", .str "t")])).2.2.2.2 rfl,
         (missing_required_field_fails genA (.obj [("semester", .str "s")])).2.2.2.1 rfl⟩

/-- C8: a patch document that omits `id` constructs an `AssignmentUpdate`
whose `id` is a freshly drawn non-null UUID, while the other omitted
optional fields come out as `None`; in particular the empty patch document
still carries a fresh `id`. -/
theorem assignment_update_id_fresh_default (g : Gen) :
    (∀ fs u, findField fs "id" = none →
      AssignmentUpdate.validate g (.obj fs) = .ok u → u.id = some (g.uuid 0)) ∧
    AssignmentUpdate.validate g (.obj []) =
      .ok ⟨some (g.uuid 0), none, none, none, none, none⟩ := by
  constructor
  · intro fs u hfind h
    simp only [AssignmentUpdate.validate] at h
    rw [vseq6_eq_ok] at h
    obtain ⟨i, _, _, _, _, _, h1, _, _, _, _, _, hmk⟩ := h
    subst hmk
    rw [inField_eq_ok, hfind] at h1
    simp only [optUUIDOr] at h1
    rw [Except.ok.injEq] at h1
    exact h1.symm
  · rfl

/-- C8 witness. -/
theorem assignment_update_id_fresh_default_witness :
    (⟨some uuidA, none, none, none, none, none⟩ : AssignmentUpdate).id =
      some (genA.uuid 0) := by
  exact (assignment_update_id_fresh_default genA).1 []
    ⟨some uuidA, none, none, none, none, none⟩ rfl rfl

/-- C9: `CourseworkUpdate.created_at` is non-nullable: an explicit `null`
fails validation with a `created_at` error, while omitting it defaults it to
the current time; every other `CourseworkUpdate` field accepts `null`. -/
theorem coursework_update_created_at_not_nullable (g : Gen) :
    CourseworkUpdate.validate g (.obj [("created_at", Json.null)]) =
      .error [["created_at"]] ∧
    CourseworkUpdate.validate g (.obj []) = .ok ⟨none, none, none, none, g.now⟩ ∧
    CourseworkUpdate.validate g (.obj [("title", Json.null)]) =
      .ok ⟨none, none, none, none, g.now⟩ ∧
    CourseworkUpdate.validate g (.obj [("semester", Json.null)]) =
      .ok ⟨none, none, none, none, g.now⟩ ∧
    CourseworkUpdate.validate g (.obj [("professor", Json.null)]) =
      .ok ⟨none, none, none, none, g.now⟩ ∧
    CourseworkUpdate.validate g (.obj [("people", Json.null)]) =
      .ok ⟨none, none, none, none, g.now⟩ := by
  exact ⟨rfl, rfl, rfl, rfl, rfl, rfl⟩

/-- C10: for every optional field of `AssignmentUpdate` (`title`,
`description`, `due_date`, `coursework`, `created_at`) and of
`CourseworkUpdate` (`title`, `semester`, `professor`, `people`), a patch
supplying an explicit `null` constructs the same record as the patch
omitting the field, and in both the field is `None`. -/
theorem explicit_null_equals_omitted (g : Gen) :
    AssignmentUpdate.validate g (.obj [("title", Json.null)]) =
      AssignmentUpdate.validate g (.obj []) ∧
    AssignmentUpdate.validate g (.obj [("description", Json.null)]) =
      AssignmentUpdate.validate g (.obj []) ∧
    AssignmentUpdate.validate g (.obj [("due_date", Json.null)]) =
      AssignmentUpdate.validate g (.obj []) ∧
    AssignmentUpdate.validate g (.obj [("coursework", Json.null)]) =
      AssignmentUpdate.validate g (.obj []) ∧
    AssignmentUpdate.validate g (.obj [("created_at", Json.null)]) =
      AssignmentUpdate.validate g (.obj []) ∧
    AssignmentUpdate.validate g (.obj []) =
      .ok ⟨some (g.uuid 0), none, none, none, none, none⟩ ∧
    CourseworkUpdate.validate g (.obj [("title", Json.null)]) =
      CourseworkUpdate.validate g (.obj []) ∧
    CourseworkUpdate.validate g (.obj [("semester", Json.null)]) =
      CourseworkUpdate.validate g (.obj []) ∧
    CourseworkUpdate.validate g (.obj [("professor", Json.null)]) =
      CourseworkUpdate.validate g (.obj []) ∧
    CourseworkUpdate.validate g (.obj [("people", Json.null)]) =
      CourseworkUpdate.validate g (.obj []) ∧
    CourseworkUpdate.validate g (.obj []) = .ok ⟨none, none, none, none, g.now⟩ := by
  exact ⟨rfl, rfl, rfl, rfl, rfl, rfl, rfl, rfl, rfl, rfl, rfl⟩

end Micro
